import Mathlib

/-!
Verification development for the codeshelf socket-relay subsystem
(src-tauri/src/commands/toolbox/forwarder.rs and .../netcat/*).

The Rust code is shallowly embedded: the global lock-guarded HashMaps become
association lists inside explicit state records, atomics become plain record
fields, and the fallible persistence layer and the network environment
(bind outcomes, live sender channels, remembered UDP peers) become explicit
parameters.  Machine integers (u16, u32, u64, usize) are modelled as Nat:
none of the modelled operations can overflow them on the inputs considered,
and the source performs no wrapping arithmetic on them.
-/

set_option maxHeartbeats 1000000

namespace Codeshelf

/-! ### Association-list maps (embedding of the HashMap registries) -/

/-- Lookup in an association list (HashMap get). -/
def lookupA {α : Type} (k : String) : List (String × α) → Option α
  | [] => none
  | (k₂, v) :: rest => if k₂ = k then some v else lookupA k rest

/-- Removal (HashMap remove). -/
def removeA {α : Type} (k : String) : List (String × α) → List (String × α)
  | [] => []
  | p :: rest => if p.1 = k then removeA k rest else p :: removeA k rest

/-- Insertion or replacement (HashMap insert). -/
def insertA {α : Type} (k : String) (v : α) (m : List (String × α)) : List (String × α) :=
  (k, v) :: removeA k m

@[simp] theorem lookupA_nil {α : Type} (k : String) : lookupA (α := α) k [] = none := rfl

theorem lookupA_removeA_self {α : Type} (k : String) (m : List (String × α)) :
    lookupA k (removeA k m) = none := by
  induction m with
  | nil => rfl
  | cons p rest ih =>
    by_cases h : p.1 = k
    · simpa [removeA, h] using ih
    · simpa [removeA, lookupA, h] using ih

theorem lookupA_removeA_ne {α : Type} (k₂ k : String) (m : List (String × α)) (h : k₂ ≠ k) :
    lookupA k (removeA k₂ m) = lookupA k m := by
  induction m with
  | nil => rfl
  | cons p rest ih =>
    by_cases hp : p.1 = k₂
    · have hk : ¬ p.1 = k := fun hh => h (hp.symm.trans hh)
      rw [removeA, if_pos hp, ih]
      simp [lookupA, hk]
    · rw [removeA, if_neg hp]
      by_cases hk : p.1 = k
      · simp [lookupA, hk]
      · simp only [lookupA, if_neg hk]
        exact ih

@[simp] theorem lookupA_insertA_self {α : Type} (k : String) (v : α) (m : List (String × α)) :
    lookupA k (insertA k v m) = some v := by
  simp [insertA, lookupA]

theorem lookupA_insertA_ne {α : Type} (k₂ k : String) (v : α) (m : List (String × α))
    (h : k₂ ≠ k) : lookupA k (insertA k₂ v m) = lookupA k m := by
  simp [insertA, lookupA, h]
  exact lookupA_removeA_ne k₂ k m h

theorem removeA_of_lookupA_none {α : Type} (k : String) (m : List (String × α))
    (h : lookupA k m = none) : removeA k m = m := by
  induction m with
  | nil => rfl
  | cons p rest ih =>
    by_cases hp : p.1 = k
    · simp [lookupA, hp] at h
    · simp only [lookupA, if_neg hp] at h
      rw [removeA, if_neg hp, ih h]

/-! ### Forwarder data model (commands/toolbox/mod.rs, forwarder.rs) -/

/-- ForwardRule from commands/toolbox/mod.rs. -/
structure ForwardRule where
  id : String
  name : String
  local_port : Nat
  remote_host : String
  remote_port : Nat
  doc_path : Option String
  status : String
  connections : Nat
  bytes_in : Nat
  bytes_out : Nat
  created_at : String
deriving DecidableEq

/-- ForwardRuleInput from commands/toolbox/mod.rs. -/
structure ForwardRuleInput where
  name : String
  local_port : Nat
  remote_host : String
  remote_port : Nat
  doc_path : Option String
deriving DecidableEq

/-- ForwardController from forwarder.rs: a stop flag plus atomic counters. -/
structure ForwardController where
  stop : Bool
  connections : Nat
  bytes_in : Nat
  bytes_out : Nat
deriving DecidableEq

/-- ForwardController.new. -/
def ForwardController.new : ForwardController :=
  { stop := false, connections := 0, bytes_in := 0, bytes_out := 0 }

/-- The forwarder module state: the FORWARD_RULES registry, the
FORWARD_CONTROLLERS table, and the last JSON snapshot written to disk
(the persistence collaborator; none means no snapshot written yet). -/
structure ForwarderState where
  rules : List (String × ForwardRule)
  controllers : List (String × ForwardController)
  disk : Option (List (String × ForwardRule))
deriving DecidableEq

/-- save_rules_to_file: writes the registry snapshot.  The I/O outcome is the
explicit parameter saveOk; on success the snapshot written is the rules map. -/
def save_rules_to_file (saveOk : Bool) (rules : List (String × ForwardRule)) :
    Except String (List (String × ForwardRule)) :=
  if saveOk then .ok rules else .error "写入转发规则失败"

/-- Is an Except value ok. -/
def isOkE {ε α : Type} : Except ε α → Bool
  | .ok _ => true
  | .error _ => false

/-- Is an Except value an error. -/
def isErrorE {ε α : Type} : Except ε α → Bool
  | .ok _ => false
  | .error _ => true

/-- add_forward_rule from forwarder.rs.  newId is the generate_id() result and
now the current_time() result (external collaborators).  Returns the module
state after the call together with the command's result. -/
def add_forward_rule (saveOk : Bool) (newId now : String) (st : ForwarderState)
    (input : ForwardRuleInput) : ForwarderState × Except String ForwardRule :=
  if input.local_port = 0 then (st, .error "本地端口不能为 0")
  else if input.remote_port = 0 then (st, .error "远程端口不能为 0")
  else if input.remote_host = "" then (st, .error "远程主机不能为空")
  else if st.rules.any (fun p => p.2.local_port == input.local_port && p.2.status == "running") then
    (st, .error ("端口 " ++ toString input.local_port ++ " 已被其他规则使用"))
  else
    let rule : ForwardRule :=
      { id := newId, name := input.name, local_port := input.local_port,
        remote_host := input.remote_host, remote_port := input.remote_port,
        doc_path := input.doc_path, status := "stopped", connections := 0,
        bytes_in := 0, bytes_out := 0, created_at := now }
    let st₁ := { st with rules := insertA newId rule st.rules }
    match save_rules_to_file saveOk st₁.rules with
    | .ok snap => ({ st₁ with disk := some snap }, .ok rule)
    | .error e =>
      ({ st₁ with rules := removeA newId st₁.rules }, .error ("保存转发规则失败: " ++ e))

/-- stop_forwarding from forwarder.rs: sets the stop flag on the controller
(shared with the running server task), immediately marks the rule stopped
in the registry, and removes the controller from the table.  The second
component is the shared controller as the running task observes it after
the call (the Arc survives the table removal). -/
def stop_forwarding (st : ForwarderState) (rule_id : String) :
    ForwarderState × Option ForwardController :=
  let signaled := (lookupA rule_id st.controllers).map (fun c => { c with stop := true })
  let controllers₁ := match lookupA rule_id st.controllers with
    | some c => insertA rule_id { c with stop := true } st.controllers
    | none => st.controllers
  let rules₁ := match lookupA rule_id st.rules with
    | some r => insertA rule_id { r with status := "stopped" } st.rules
    | none => st.rules
  ({ st with rules := rules₁, controllers := removeA rule_id controllers₁ }, signaled)

/-- The descriptor of the server task that start_forwarding spawns. -/
structure SpawnedServer where
  rule_id : String
  local_port : Nat
  remote_host : String
  remote_port : Nat
  controller : ForwardController
deriving DecidableEq

/-- The network environment: for each local port, whether binding a listener
on 0.0.0.0 at that port fails (some error) or succeeds (none).  Socket
creation, SO_REUSEADDR, SO_LINGER, bind and listen in run_forward_server are
collapsed into this one outcome since each maps an OS failure to an error
return of the same shape. -/
structure NetEnv where
  bind_error : Nat → Option String

/-- The synchronous prefix of run_forward_server from forwarder.rs, up to the
point where the listener is established: this is the part that can fail with
a bind error.  The accept loop that follows is concurrency and is modelled
separately only as far as the claims need. -/
def run_forward_server_bind (env : NetEnv) (local_port : Nat) : Except String Unit :=
  match env.bind_error local_port with
  | some e => .error ("绑定端口失败: " ++ e)
  | none => .ok ()

/-- start_forwarding from forwarder.rs: looks the rule up, rejects when
already running, installs a fresh controller, marks the rule running, and
spawns run_forward_server, returning Ok before the spawned task has run
(in particular before the bind is attempted).  The returned SpawnedServer
is the spawned task's argument tuple. -/
def start_forwarding (st : ForwarderState) (rule_id : String) :
    ForwarderState × Except String SpawnedServer :=
  match lookupA rule_id st.rules with
  | none => (st, .error ("规则不存在: " ++ rule_id))
  | some rule =>
    if rule.status = "running" then (st, .error "转发已在运行中")
    else
      let controller := ForwardController.new
      let st₁ := { st with controllers := insertA rule_id controller st.controllers }
      let st₂ := { st₁ with rules := insertA rule_id { rule with status := "running" } st₁.rules }
      (st₂, .ok { rule_id := rule_id, local_port := rule.local_port,
                  remote_host := rule.remote_host, remote_port := rule.remote_port,
                  controller := controller })

/-- The tail of the task spawned by start_forwarding: after run_forward_server
returns, the rule's status is set back to "stopped" in the registry. -/
def spawned_task_finish (st : ForwarderState) (rule_id : String) : ForwarderState :=
  match lookupA rule_id st.rules with
  | some r => { st with rules := insertA rule_id { r with status := "stopped" } st.rules }
  | none => st

/-- The spawned forward-server task, modelled up to the bind outcome: when the
bind fails the error is only logged and the rule is marked stopped; when it
succeeds the task enters the accept loop (whose further behaviour no claim
needs). -/
def run_spawned_forward_task (env : NetEnv) (st : ForwarderState) (task : SpawnedServer) :
    ForwarderState :=
  match run_forward_server_bind env task.local_port with
  | .error _ => spawned_task_finish st task.rule_id
  | .ok _ => st

/-- remove_forward_rule from forwarder.rs: first stops the rule, reads the
(now stopped) rule for rollback, removes it, persists, and on a persistence
failure re-inserts the saved copy. -/
def remove_forward_rule (saveOk : Bool) (st : ForwarderState) (rule_id : String) :
    ForwarderState × Except String Unit :=
  let st₀ := (stop_forwarding st rule_id).1
  let old_rule := lookupA rule_id st₀.rules
  let st₁ := { st₀ with rules := removeA rule_id st₀.rules }
  match save_rules_to_file saveOk st₁.rules with
  | .ok snap => ({ st₁ with disk := some snap }, .ok ())
  | .error e =>
    let st₂ := match old_rule with
      | some r => { st₁ with rules := insertA rule_id r st₁.rules }
      | none => st₁
    (st₂, .error ("保存转发规则失败: " ++ e))

/-- update_forward_rule from forwarder.rs: reads the current rule (the
rollback copy) before stopping it, overwrites the configuration fields,
persists, and on a persistence failure restores the pre-call copy. -/
def update_forward_rule (saveOk : Bool) (st : ForwarderState) (rule_id : String)
    (input : ForwardRuleInput) : ForwarderState × Except String ForwardRule :=
  match lookupA rule_id st.rules with
  | none => (st, .error ("规则不存在: " ++ rule_id))
  | some current =>
    let old_rule := current
    let st₀ := if current.status = "running" then (stop_forwarding st rule_id).1 else st
    let st₁ := match lookupA rule_id st₀.rules with
      | some r =>
        let r₂ : ForwardRule :=
          { r with
            name := input.name
            local_port := input.local_port
            remote_host := input.remote_host
            remote_port := input.remote_port
            doc_path := input.doc_path }
        { st₀ with rules := insertA rule_id r₂ st₀.rules }
      | none => st₀
    match save_rules_to_file saveOk st₁.rules with
    | .ok snap =>
      ({ st₁ with disk := some snap },
       match lookupA rule_id st₁.rules with
       | some r => .ok r
       | none => .error "规则不存在")
    | .error e =>
      ({ st₁ with rules := insertA rule_id old_rule st₁.rules },
       .error ("保存转发规则失败: " ++ e))

/-! ### Concrete forwarder fixtures -/

/-- A stopped rule on local port 18080. -/
def ruleA : ForwardRule :=
  { id := "r1", name := "api", local_port := 18080, remote_host := "127.0.0.1",
    remote_port := 9000, doc_path := none, status := "stopped", connections := 0,
    bytes_in := 0, bytes_out := 0, created_at := "2026-01-01 00:00:00" }

/-- Registry holding only the stopped rule. -/
def stStopped : ForwarderState :=
  { rules := [("r1", ruleA)], controllers := [], disk := none }

/-- An environment in which binding port 18080 fails (address already in use). -/
def envBindFail : NetEnv :=
  { bind_error := fun p => if p = 18080 then some "Address already in use" else none }

/-- The same rule while running, with live stats copied into the registry. -/
def ruleRunning : ForwardRule :=
  { ruleA with status := "running", connections := 3, bytes_in := 5, bytes_out := 7 }

/-- The running rule's controller. -/
def ctrlRunning : ForwardController :=
  { stop := false, connections := 3, bytes_in := 5, bytes_out := 7 }

/-- Registry holding the running rule and its controller. -/
def stRunning : ForwarderState :=
  { rules := [("r1", ruleRunning)], controllers := [("r1", ctrlRunning)], disk := none }

/-! ### C1 -/

/-- C1 counterexample: for the rule on port 18080, whose local port cannot be
bound (the environment reports the address already in use, so the bind step of
run_forward_server fails), start_forwarding nevertheless returns Ok: the bind
error is not surfaced synchronously to the caller of start. -/
theorem c1_counterexample :
    envBindFail.bind_error ruleA.local_port = some "Address already in use" ∧
    run_forward_server_bind envBindFail ruleA.local_port =
      Except.error "绑定端口失败: Address already in use" ∧
    isOkE (start_forwarding stStopped "r1").2 = true :=
  ⟨rfl, rfl, rfl⟩

/-- C1 amended: when the local port of a present, non-running rule cannot be
bound, start_forwarding still returns Ok synchronously (spawning the server
task); the bind failure is observed only inside the spawned task, which logs
it and resets the rule's status to "stopped".  No error reaches the caller
of start. -/
theorem c1_amended (env : NetEnv) (st : ForwarderState) (rid : String)
    (rule : ForwardRule) (e : String) (hr : lookupA rid st.rules = some rule)
    (hs : rule.status ≠ "running") (hb : env.bind_error rule.local_port = some e) :
    ∃ task : SpawnedServer,
      (start_forwarding st rid).2 = Except.ok task ∧
      run_forward_server_bind env task.local_port = Except.error ("绑定端口失败: " ++ e) ∧
      lookupA rid (run_spawned_forward_task env (start_forwarding st rid).1 task).rules =
        some { rule with status := "stopped" } := by
  refine ⟨{ rule_id := rid, local_port := rule.local_port, remote_host := rule.remote_host,
            remote_port := rule.remote_port, controller := ForwardController.new },
          ?_, ?_, ?_⟩
  · simp [start_forwarding, hr, hs]
  · simp [run_forward_server_bind, hb]
  · simp [start_forwarding, hr, hs, run_spawned_forward_task, run_forward_server_bind,
      hb, spawned_task_finish, lookupA_insertA_self]

/-- C1 amended, witness at the concrete fixture. -/
theorem c1_amended_witness :
    ∃ task : SpawnedServer,
      (start_forwarding stStopped "r1").2 = Except.ok task ∧
      run_forward_server_bind envBindFail task.local_port =
        Except.error ("绑定端口失败: " ++ "Address already in use") ∧
      lookupA "r1" (run_spawned_forward_task envBindFail (start_forwarding stStopped "r1").1
          task).rules = some { ruleA with status := "stopped" } :=
  c1_amended envBindFail stStopped "r1" ruleA "Address already in use" rfl (by decide) rfl

/-! ### C2 -/

/-- C2 counterexample: stopping the running rule with registry stats
(connections, bytes_in, bytes_out) = (3, 5, 7) leaves exactly those values in
the registry entry rather than zeroing them; only the status becomes
"stopped". -/
theorem c2_counterexample :
    (lookupA "r1" (stop_forwarding stRunning "r1").1.rules).map
        (fun r => (r.status, r.connections, r.bytes_in, r.bytes_out)) =
      some ("stopped", 3, 5, 7) ∧
    ((3 : Nat), (5 : Nat), (7 : Nat)) ≠ ((0 : Nat), (0 : Nat), (0 : Nat)) :=
  ⟨rfl, by decide⟩

/-- C2 amended: after stop_forwarding returns, the rule's registry status is
"stopped" and its controller has been removed from the controller table, with
the stop flag set on the shared controller; the registry's stats fields
(connections, bytes_in, bytes_out) keep their pre-stop values instead of
being reset to zero. -/
theorem c2_amended (st : ForwarderState) (rid : String) (rule : ForwardRule)
    (hr : lookupA rid st.rules = some rule) :
    lookupA rid (stop_forwarding st rid).1.rules = some { rule with status := "stopped" } ∧
    lookupA rid (stop_forwarding st rid).1.controllers = none ∧
    (∀ c, lookupA rid st.controllers = some c →
      (stop_forwarding st rid).2 = some { c with stop := true }) := by
  refine ⟨?_, ?_, ?_⟩
  · simp [stop_forwarding, hr]
  · cases hc : lookupA rid st.controllers <;>
      simp [stop_forwarding, hc, lookupA_removeA_self]
  · intro c hc
    simp [stop_forwarding, hc]

/-- C2 amended, witness at the concrete fixture. -/
theorem c2_amended_witness :
    lookupA "r1" (stop_forwarding stRunning "r1").1.rules =
      some { ruleRunning with status := "stopped" } ∧
    lookupA "r1" (stop_forwarding stRunning "r1").1.controllers = none ∧
    (∀ c, lookupA "r1" stRunning.controllers = some c →
      (stop_forwarding stRunning "r1").2 = some { c with stop := true }) :=
  c2_amended stRunning "r1" ruleRunning rfl

/-! ### C3 -/

/-- C3: add_forward_rule rejects local_port = 0, remote_port = 0 and an empty
remote_host with a validation error while leaving the whole module state —
registry and persisted snapshot — unchanged; it rejects an input whose
local_port is already used by a rule in status "running"; and otherwise
(with working persistence) it returns a rule carrying the generated id,
status "stopped" and zero stats, inserts it into the registry and writes the
extended snapshot. -/
theorem c3_add_rule (saveOk : Bool) (newId now : String) (st : ForwarderState)
    (input : ForwardRuleInput) :
    ((input.local_port = 0 ∨ input.remote_port = 0 ∨ input.remote_host = "") →
      (add_forward_rule saveOk newId now st input).1 = st ∧
      isErrorE (add_forward_rule saveOk newId now st input).2 = true) ∧
    (st.rules.any (fun p => p.2.local_port == input.local_port &&
        p.2.status == "running") = true →
      (add_forward_rule saveOk newId now st input).1 = st ∧
      isErrorE (add_forward_rule saveOk newId now st input).2 = true) ∧
    (input.local_port ≠ 0 → input.remote_port ≠ 0 → input.remote_host ≠ "" →
      st.rules.any (fun p => p.2.local_port == input.local_port &&
        p.2.status == "running") = false →
      ∃ r : ForwardRule,
        (add_forward_rule true newId now st input).2 = Except.ok r ∧
        r.id = newId ∧ r.status = "stopped" ∧ r.connections = 0 ∧
        r.bytes_in = 0 ∧ r.bytes_out = 0 ∧ r.local_port = input.local_port ∧
        lookupA newId (add_forward_rule true newId now st input).1.rules = some r ∧
        (add_forward_rule true newId now st input).1.disk =
          some (insertA newId r st.rules)) := by
  refine ⟨?_, ?_, ?_⟩
  · intro h
    by_cases h1 : input.local_port = 0
    · simp [add_forward_rule, h1, isErrorE]
    · by_cases h2 : input.remote_port = 0
      · simp [add_forward_rule, h1, h2, isErrorE]
      · have h3 : input.remote_host = "" := by tauto
        simp [add_forward_rule, h1, h2, h3, isErrorE]
  · intro h
    by_cases h1 : input.local_port = 0
    · simp [add_forward_rule, h1, isErrorE]
    · by_cases h2 : input.remote_port = 0
      · simp [add_forward_rule, h1, h2, isErrorE]
      · by_cases h3 : input.remote_host = ""
        · simp [add_forward_rule, h1, h2, h3, isErrorE]
        · simp [add_forward_rule, h1, h2, h3, h, isErrorE]
  · intro h1 h2 h3 h4
    refine ⟨{ id := newId, name := input.name, local_port := input.local_port,
              remote_host := input.remote_host, remote_port := input.remote_port,
              doc_path := input.doc_path, status := "stopped", connections := 0,
              bytes_in := 0, bytes_out := 0, created_at := now },
            ?_, rfl, rfl, rfl, rfl, rfl, rfl, ?_, ?_⟩
    · simp [add_forward_rule, h1, h2, h3, h4, save_rules_to_file]
    · simp [add_forward_rule, h1, h2, h3, h4, save_rules_to_file, lookupA_insertA_self]
    · simp [add_forward_rule, h1, h2, h3, h4, save_rules_to_file]

/-- An input failing validation: local_port = 0. -/
def inputBad : ForwardRuleInput :=
  { name := "bad", local_port := 0, remote_host := "127.0.0.1", remote_port := 1,
    doc_path := none }

/-- A valid input on a port no running rule uses. -/
def inputGood : ForwardRuleInput :=
  { name := "good", local_port := 18081, remote_host := "127.0.0.1", remote_port := 9000,
    doc_path := none }

/-- C3 witness: the validation-error case and the success case evaluated at
concrete inputs over the concrete registry. -/
theorem c3_add_rule_witness :
    ((add_forward_rule true "n1" "t0" stStopped inputBad).1 = stStopped ∧
      isErrorE (add_forward_rule true "n1" "t0" stStopped inputBad).2 = true) ∧
    (∃ r : ForwardRule,
      (add_forward_rule true "n1" "t0" stStopped inputGood).2 = Except.ok r ∧
      r.id = "n1" ∧ r.status = "stopped" ∧ r.connections = 0 ∧
      r.bytes_in = 0 ∧ r.bytes_out = 0 ∧ r.local_port = inputGood.local_port ∧
      lookupA "n1" (add_forward_rule true "n1" "t0" stStopped inputGood).1.rules = some r ∧
      (add_forward_rule true "n1" "t0" stStopped inputGood).1.disk =
        some (insertA "n1" r stStopped.rules)) :=
  ⟨(c3_add_rule true "n1" "t0" stStopped inputBad).1 (Or.inl rfl),
   (c3_add_rule true "n1" "t0" stStopped inputGood).2.2
     (by decide) (by decide) (by decide) (by decide)⟩

/-! ### C10 -/

/-- C10 counterexample: removing the running rule while persistence fails
rolls the registry back to the copy taken after the preceding stop, so the
rule reappears with status "stopped" — not the exact pre-call entry, whose
status was "running". -/
theorem c10_counterexample :
    isErrorE (remove_forward_rule false stRunning "r1").2 = true ∧
    lookupA "r1" (remove_forward_rule false stRunning "r1").1.rules =
      some { ruleRunning with status := "stopped" } ∧
    lookupA "r1" (remove_forward_rule false stRunning "r1").1.rules ≠
      lookupA "r1" stRunning.rules :=
  ⟨rfl, rfl, by decide⟩

/-- C10 amended: whenever add_forward_rule, update_forward_rule or
remove_forward_rule returns an error, the registry is rolled back: add (with
a fresh id) and update leave every key exactly as before the call; remove
restores every other key exactly and re-inserts the removed rule itself with
status forced to "stopped" (the stop that precedes removal persists through
the rollback; for a rule that was not running this too is the original
entry). -/
theorem c10_amended (saveOk : Bool) (newId now : String) (st : ForwarderState)
    (input : ForwardRuleInput) (rid k : String)
    (hfresh : lookupA newId st.rules = none) :
    (isErrorE (add_forward_rule saveOk newId now st input).2 = true →
      lookupA k (add_forward_rule saveOk newId now st input).1.rules =
        lookupA k st.rules) ∧
    (isErrorE (update_forward_rule saveOk st rid input).2 = true →
      lookupA k (update_forward_rule saveOk st rid input).1.rules =
        lookupA k st.rules) ∧
    (isErrorE (remove_forward_rule saveOk st rid).2 = true →
      (k ≠ rid → lookupA k (remove_forward_rule saveOk st rid).1.rules =
        lookupA k st.rules) ∧
      lookupA rid (remove_forward_rule saveOk st rid).1.rules =
        (lookupA rid st.rules).map (fun r => { r with status := "stopped" })) := by
  refine ⟨?_, ?_, ?_⟩
  · intro herr
    by_cases h1 : input.local_port = 0
    · simp [add_forward_rule, h1]
    · by_cases h2 : input.remote_port = 0
      · simp [add_forward_rule, h1, h2]
      · by_cases h3 : input.remote_host = ""
        · simp [add_forward_rule, h1, h2, h3]
        · by_cases h4 : st.rules.any (fun p => p.2.local_port == input.local_port &&
              p.2.status == "running") = true
          · simp [add_forward_rule, h1, h2, h3, h4]
          · cases saveOk with
            | true =>
              exfalso
              simp [add_forward_rule, h1, h2, h3, h4, save_rules_to_file, isErrorE] at herr
            | false =>
              simp only [add_forward_rule, if_neg h1, if_neg h2, if_neg h3,
                save_rules_to_file, Bool.false_eq_true, if_false]
              rw [if_neg h4]
              by_cases hk : k = newId
              · subst hk
                simp [lookupA_removeA_self, hfresh]
              · simp only []
                rw [lookupA_removeA_ne newId k _ (fun h => hk h.symm),
                  lookupA_insertA_ne newId k _ _ (fun h => hk h.symm)]
  · intro herr
    cases hcur : lookupA rid st.rules with
    | none => simp [update_forward_rule, hcur]
    | some current =>
      by_cases hrun : current.status = "running"
      · cases saveOk with
        | true =>
          exfalso
          simp [update_forward_rule, hcur, hrun, stop_forwarding, save_rules_to_file,
            lookupA_insertA_self, isErrorE] at herr
        | false =>
          simp only [update_forward_rule, hcur, if_pos hrun, stop_forwarding,
            lookupA_insertA_self, save_rules_to_file, Bool.false_eq_true, if_false]
          by_cases hk : k = rid
          · subst hk
            simp [lookupA_insertA_self, hcur]
          · rw [lookupA_insertA_ne rid k _ _ (fun h => hk h.symm),
              lookupA_insertA_ne rid k _ _ (fun h => hk h.symm),
              lookupA_insertA_ne rid k _ _ (fun h => hk h.symm)]
      · cases saveOk with
        | true =>
          exfalso
          simp [update_forward_rule, hcur, hrun, save_rules_to_file,
            lookupA_insertA_self, isErrorE] at herr
        | false =>
          simp only [update_forward_rule, hcur, if_neg hrun,
            lookupA_insertA_self, save_rules_to_file, Bool.false_eq_true, if_false]
          by_cases hk : k = rid
          · subst hk
            simp [lookupA_insertA_self, hcur]
          · rw [lookupA_insertA_ne rid k _ _ (fun h => hk h.symm),
              lookupA_insertA_ne rid k _ _ (fun h => hk h.symm)]
  · intro herr
    cases saveOk with
    | true =>
      exfalso
      simp [remove_forward_rule, save_rules_to_file, isErrorE] at herr
    | false =>
      cases hcur : lookupA rid st.rules with
      | none =>
        constructor
        · intro hk
          simp only [remove_forward_rule, stop_forwarding, hcur,
            lookupA_removeA_self, save_rules_to_file, Bool.false_eq_true, if_false]
          rw [lookupA_removeA_ne rid k _ (fun h => hk h.symm)]
        · simp [remove_forward_rule, stop_forwarding, hcur, save_rules_to_file,
            lookupA_removeA_self]
      | some r0 =>
        constructor
        · intro hk
          simp only [remove_forward_rule, stop_forwarding, hcur,
            lookupA_insertA_self, save_rules_to_file, Bool.false_eq_true, if_false]
          rw [lookupA_insertA_ne rid k _ _ (fun h => hk h.symm),
            lookupA_removeA_ne rid k _ (fun h => hk h.symm),
            lookupA_insertA_ne rid k _ _ (fun h => hk h.symm)]
        · simp [remove_forward_rule, stop_forwarding, hcur, save_rules_to_file,
            lookupA_insertA_self]

/-- C10 amended, witness at the concrete fixture: remove of the running rule
with failing persistence. -/
theorem c10_amended_witness :
    (isErrorE (add_forward_rule false "n1" "t0" stRunning inputGood).2 = true →
      lookupA "r1" (add_forward_rule false "n1" "t0" stRunning inputGood).1.rules =
        lookupA "r1" stRunning.rules) ∧
    (isErrorE (update_forward_rule false stRunning "r1" inputGood).2 = true →
      lookupA "r1" (update_forward_rule false stRunning "r1" inputGood).1.rules =
        lookupA "r1" stRunning.rules) ∧
    (isErrorE (remove_forward_rule false stRunning "r1").2 = true →
      ("r1" ≠ "r1" → lookupA "r1" (remove_forward_rule false stRunning "r1").1.rules =
        lookupA "r1" stRunning.rules) ∧
      lookupA "r1" (remove_forward_rule false stRunning "r1").1.rules =
        (lookupA "r1" stRunning.rules).map (fun r => { r with status := "stopped" })) :=
  c10_amended false "n1" "t0" stRunning inputGood "r1" "r1" rfl

/-! ### Netcat byte/string primitives (netcat/mod.rs, tcp_server.rs, udp.rs)

Payload strings are modelled as List Char (Unicode scalar values, matching
Rust str) and byte buffers as List Nat with entries below 256. -/

/-- Rust char::is_ascii_hexdigit. -/
def isAsciiHexDigit (c : Char) : Bool :=
  (48 ≤ c.toNat && c.toNat ≤ 57) || (97 ≤ c.toNat && c.toNat ≤ 102) ||
    (65 ≤ c.toNat && c.toNat ≤ 70)

/-- Rust char::is_whitespace: the Unicode White_Space code points. -/
def rustIsWhitespace (c : Char) : Bool :=
  (9 ≤ c.toNat && c.toNat ≤ 13) || c.toNat = 32 || c.toNat = 133 ||
    c.toNat = 160 || c.toNat = 5760 || (8192 ≤ c.toNat && c.toNat ≤ 8202) ||
    c.toNat = 8232 || c.toNat = 8233 || c.toNat = 8239 || c.toNat = 8287 ||
    c.toNat = 12288

/-- Rust str::replace of a two-character pattern by the empty string:
removes non-overlapping occurrences left to right. -/
def removePat2 (a b : Char) : List Char → List Char
  | [] => []
  | [c] => [c]
  | c :: d :: rest =>
    if c = a ∧ d = b then removePat2 a b rest
    else c :: removePat2 a b (d :: rest)

/-- Value of one hex digit as read by u8::from_str_radix with radix 16. -/
def hexDigitVal (c : Char) : Option Nat :=
  if 48 ≤ c.toNat ∧ c.toNat ≤ 57 then some (c.toNat - 48)
  else if 97 ≤ c.toNat ∧ c.toNat ≤ 102 then some (c.toNat - 87)
  else if 65 ≤ c.toNat ∧ c.toNat ≤ 70 then some (c.toNat - 55)
  else none

/-- The pairwise parse loop of the hex branch of parse_input_data: each
two-digit chunk goes through u8::from_str_radix(.., 16). -/
def parseHexPairs : List Char → Except String (List Nat)
  | [] => .ok []
  | hi :: lo :: rest =>
    match hexDigitVal hi, hexDigitVal lo with
    | some h, some l =>
      match parseHexPairs rest with
      | .ok bs => .ok ((16 * h + l) :: bs)
      | .error e => .error e
    | _, _ => .error "无效的十六进制"
  | [_] => .error "无效的十六进制"

/-- UTF-8 encoding of one Unicode scalar value (Rust str::as_bytes). -/
def utf8EncodeChar (c : Char) : List Nat :=
  let n := c.toNat
  if n < 128 then [n]
  else if n < 2048 then [192 + n / 64, 128 + n % 64]
  else if n < 65536 then [224 + n / 4096, 128 + (n / 64) % 64, 128 + n % 64]
  else [240 + n / 262144, 128 + (n / 4096) % 64, 128 + (n / 64) % 64, 128 + n % 64]

/-- UTF-8 encoding of a string (Rust str::as_bytes). -/
def utf8Encode (l : List Char) : List Nat := (l.map utf8EncodeChar).flatten

/-- UTF-8 validation and decoding of a byte buffer, with the exact accepting
ranges of Rust's String::from_utf8 (rejecting overlong forms, surrogates and
values above U+10FFFF); some s means the buffer is valid UTF-8 and decodes
to s. -/
def utf8Decode : List Nat → Option (List Char)
  | [] => some []
  | b :: rest =>
    if b ≤ 127 then
      (utf8Decode rest).map (fun s => Char.ofNat b :: s)
    else if 194 ≤ b ∧ b ≤ 223 then
      match rest with
      | b₁ :: rest₂ =>
        if 128 ≤ b₁ ∧ b₁ ≤ 191 then
          (utf8Decode rest₂).map (fun s => Char.ofNat ((b - 192) * 64 + (b₁ - 128)) :: s)
        else none
      | [] => none
    else if b = 224 then
      match rest with
      | b₁ :: b₂ :: rest₂ =>
        if (160 ≤ b₁ ∧ b₁ ≤ 191) ∧ (128 ≤ b₂ ∧ b₂ ≤ 191) then
          (utf8Decode rest₂).map (fun s =>
            Char.ofNat ((b₁ - 128) * 64 + (b₂ - 128)) :: s)
        else none
      | _ => none
    else if (225 ≤ b ∧ b ≤ 236) ∨ b = 238 ∨ b = 239 then
      match rest with
      | b₁ :: b₂ :: rest₂ =>
        if (128 ≤ b₁ ∧ b₁ ≤ 191) ∧ (128 ≤ b₂ ∧ b₂ ≤ 191) then
          (utf8Decode rest₂).map (fun s =>
            Char.ofNat ((b - 224) * 4096 + (b₁ - 128) * 64 + (b₂ - 128)) :: s)
        else none
      | _ => none
    else if b = 237 then
      match rest with
      | b₁ :: b₂ :: rest₂ =>
        if (128 ≤ b₁ ∧ b₁ ≤ 159) ∧ (128 ≤ b₂ ∧ b₂ ≤ 191) then
          (utf8Decode rest₂).map (fun s =>
            Char.ofNat ((b - 224) * 4096 + (b₁ - 128) * 64 + (b₂ - 128)) :: s)
        else none
      | _ => none
    else if b = 240 then
      match rest with
      | b₁ :: b₂ :: b₃ :: rest₂ =>
        if (144 ≤ b₁ ∧ b₁ ≤ 191) ∧ (128 ≤ b₂ ∧ b₂ ≤ 191) ∧ (128 ≤ b₃ ∧ b₃ ≤ 191) then
          (utf8Decode rest₂).map (fun s =>
            Char.ofNat ((b₁ - 128) * 4096 + (b₂ - 128) * 64 + (b₃ - 128)) :: s)
        else none
      | _ => none
    else if 241 ≤ b ∧ b ≤ 243 then
      match rest with
      | b₁ :: b₂ :: b₃ :: rest₂ =>
        if (128 ≤ b₁ ∧ b₁ ≤ 191) ∧ (128 ≤ b₂ ∧ b₂ ≤ 191) ∧ (128 ≤ b₃ ∧ b₃ ≤ 191) then
          (utf8Decode rest₂).map (fun s =>
            Char.ofNat ((b - 240) * 262144 + (b₁ - 128) * 4096 + (b₂ - 128) * 64 +
              (b₃ - 128)) :: s)
        else none
      | _ => none
    else if b = 244 then
      match rest with
      | b₁ :: b₂ :: b₃ :: rest₂ =>
        if (128 ≤ b₁ ∧ b₁ ≤ 143) ∧ (128 ≤ b₂ ∧ b₂ ≤ 191) ∧ (128 ≤ b₃ ∧ b₃ ≤ 191) then
          (utf8Decode rest₂).map (fun s =>
            Char.ofNat ((b - 240) * 262144 + (b₁ - 128) * 4096 + (b₂ - 128) * 64 +
              (b₃ - 128)) :: s)
        else none
      | _ => none
    else none
termination_by l => l.length
decreasing_by all_goals simp_wf <;> omega

/-- Rust str::trim (both ends, char::is_whitespace). -/
def rustTrim (l : List Char) : List Char :=
  ((l.dropWhile rustIsWhitespace).reverse.dropWhile rustIsWhitespace).reverse

/-- Value of one character in the standard base64 alphabet. -/
def base64Val (c : Char) : Option Nat :=
  if 65 ≤ c.toNat ∧ c.toNat ≤ 90 then some (c.toNat - 65)
  else if 97 ≤ c.toNat ∧ c.toNat ≤ 122 then some (c.toNat - 71)
  else if 48 ≤ c.toNat ∧ c.toNat ≤ 57 then some (c.toNat + 4)
  else if c = '+' then some 62
  else if c = '/' then some 63
  else none

/-- Decoder for base64::engine::general_purpose::STANDARD: canonical
padded quads, padding only at the end, trailing garbage bits rejected. -/
def base64DecodeQuads : List Char → Except String (List Nat)
  | [] => .ok []
  | c₁ :: c₂ :: c₃ :: c₄ :: rest =>
    match base64Val c₁, base64Val c₂ with
    | some v₁, some v₂ =>
      if c₃ = '=' then
        if c₄ = '=' ∧ rest = [] ∧ v₂ % 16 = 0 then .ok [v₁ * 4 + v₂ / 16]
        else .error "Base64 解码失败: 无效的填充"
      else
        match base64Val c₃ with
        | some v₃ =>
          if c₄ = '=' then
            if rest = [] ∧ v₃ % 4 = 0 then
              .ok [v₁ * 4 + v₂ / 16, (v₂ % 16) * 16 + v₃ / 4]
            else .error "Base64 解码失败: 无效的填充"
          else
            match base64Val c₄ with
            | some v₄ =>
              match base64DecodeQuads rest with
              | .ok bs =>
                .ok ([v₁ * 4 + v₂ / 16, (v₂ % 16) * 16 + v₃ / 4,
                      (v₃ % 4) * 64 + v₄] ++ bs)
              | .error e => .error e
            | none => .error "Base64 解码失败: 无效的字符"
        | none => .error "Base64 解码失败: 无效的字符"
    | _, _ => .error "Base64 解码失败: 无效的字符"
  | _ => .error "Base64 解码失败: 长度无效"

/-- DataFormat from netcat/types.rs. -/
inductive DataFormat
  | text
  | hex
  | base64
deriving DecidableEq

/-- parse_input_data from netcat/mod.rs.  For hex: strip "0x" then "0X",
keep only hex digits and whitespace, concatenate the whitespace-separated
runs (split_whitespace + collect, which drops exactly the whitespace),
require an even digit count, and parse two digits per byte.  For base64:
trim, then decode with the STANDARD engine. -/
def parse_input_data (data : List Char) (format : DataFormat) : Except String (List Nat) :=
  match format with
  | .text => .ok (utf8Encode data)
  | .hex =>
    let cleaned := (removePat2 '0' 'X' (removePat2 '0' 'x' data)).filter
      (fun c => isAsciiHexDigit c || rustIsWhitespace c)
    let hexStr := cleaned.filter (fun c => !(rustIsWhitespace c))
    if hexStr.length % 2 ≠ 0 then .error "十六进制字符串长度必须为偶数"
    else parseHexPairs hexStr
  | .base64 => base64DecodeQuads (rustTrim data)

/-- The hex digits surviving parse_input_data's stripping and filtering. -/
def hexDigitsOf (data : List Char) : List Char :=
  (removePat2 '0' 'X' (removePat2 '0' 'x' data)).filter isAsciiHexDigit

/-- Byte values of an all-hex-digit character list, two digits per byte. -/
def decodeHexDigits : List Char → List Nat
  | hi :: lo :: rest =>
    (16 * (hexDigitVal hi).getD 0 + (hexDigitVal lo).getD 0) :: decodeHexDigits rest
  | _ => []

/-- Uppercase hex digit of a value below 16 (the formatter behind the
Rust format specifier 02X). -/
def toHexDigitU (n : Nat) : Char :=
  if n < 10 then Char.ofNat (48 + n) else Char.ofNat (55 + n)

/-- Two uppercase hex digits of one byte. -/
def byteToHexU (b : Nat) : List Char := [toHexDigitU (b / 16), toHexDigitU (b % 16)]

/-- Space-separated uppercase hex rendering of a byte buffer
(map 02X then join with one space), as in bytes_to_display_string. -/
def hexSpacedUpper : List Nat → List Char
  | [] => []
  | [b] => byteToHexU b
  | b :: b₂ :: rest => byteToHexU b ++ ' ' :: hexSpacedUpper (b₂ :: rest)

/-- bytes_to_display_string from netcat/tcp_server.rs, tcp_client.rs and
udp.rs: the UTF-8 decoding when the bytes are valid UTF-8, otherwise the
space-separated uppercase hex rendering. -/
def bytes_to_display_string (data : List Nat) : List Char :=
  match utf8Decode data with
  | some s => s
  | none => hexSpacedUpper data

/-! ### Netcat data model (netcat/types.rs) -/

/-- Protocol from netcat/types.rs. -/
inductive Protocol
  | tcp
  | udp
deriving DecidableEq

/-- SessionMode from netcat/types.rs. -/
inductive SessionMode
  | client
  | server
deriving DecidableEq

/-- SessionStatus from netcat/types.rs. -/
inductive SessionStatus
  | connecting
  | connected
  | listening
  | disconnected
  | error
deriving DecidableEq

/-- MessageDirection from netcat/types.rs. -/
inductive MessageDirection
  | sent
  | received
deriving DecidableEq

/-- NetcatSession from netcat/types.rs. -/
structure NetcatSession where
  id : String
  name : String
  protocol : Protocol
  mode : SessionMode
  host : String
  port : Nat
  status : SessionStatus
  auto_reconnect : Bool
  timeout_ms : Nat
  created_at : Nat
  connected_at : Option Nat
  last_activity : Option Nat
  bytes_sent : Nat
  bytes_received : Nat
  message_count : Nat
  error_message : Option String
  client_count : Nat
deriving DecidableEq

/-- SendMessageInput from netcat/types.rs. -/
structure SendMessageInput where
  session_id : String
  data : List Char
  format : DataFormat
  target_client : Option String
  broadcast : Option Bool
deriving DecidableEq

/-- NetcatMessage from netcat/types.rs. -/
structure NetcatMessage where
  id : String
  session_id : String
  direction : MessageDirection
  data : List Char
  format : DataFormat
  size : Nat
  timestamp : Nat
  client_id : Option String
  client_addr : Option String
deriving DecidableEq

/-- ConnectedClient from netcat/types.rs. -/
structure ConnectedClient where
  id : String
  addr : String
  connected_at : Nat
  last_activity : Nat
  bytes_sent : Nat
  bytes_received : Nat
deriving DecidableEq

/-- SessionState from netcat/types.rs: the session, its capped message log,
its client table, and whether a shutdown sender is installed. -/
structure SessionState where
  session : NetcatSession
  messages : List NetcatMessage
  clients : List (String × ConnectedClient)
  shutdown_tx : Bool
deriving DecidableEq

/-- The netcat runtime side tables and external collaborators: TCP_SENDERS
keys holding a live channel (tcp_client.rs), SERVER_CLIENTS with the
client-writer ids per server session (tcp_server.rs), UDP_SOCKETS with each
UDP session's remembered target address — some (some a) for a client bound
to peer a, some none for a server (udp.rs) — and the standard library's
SocketAddr parser.  Channel sends to a live receiver are modelled as
succeeding. -/
structure NetcatEnv where
  tcpSenders : List String
  serverClients : List (String × List String)
  udpSockets : List (String × Option String)
  parseAddr : String → Option String

/-- send_tcp_client_data from netcat/tcp_client.rs: succeeds exactly when a
live sender channel is registered for the session. -/
def send_tcp_client_data (env : NetcatEnv) (session_id : String) : Except String Unit :=
  if env.tcpSenders.contains session_id then .ok ()
  else .error "会话不存在或未连接"

/-- send_to_client from netcat/tcp_server.rs. -/
def send_to_client (env : NetcatEnv) (session_id client_id : String) : Except String Unit :=
  match lookupA session_id env.serverClients with
  | some clients =>
    if clients.contains client_id then .ok () else .error "客户端不存在"
  | none => .error "会话不存在"

/-- broadcast_to_clients from netcat/tcp_server.rs: fails when the session
has no client writers at all. -/
def broadcast_to_clients (env : NetcatEnv) (session_id : String) : Except String Unit :=
  match lookupA session_id env.serverClients with
  | some clients =>
    if clients.length = 0 then .error "没有已连接的客户端" else .ok ()
  | none => .error "会话不存在"

/-- send_udp_data from netcat/udp.rs: resolves the destination — an explicit
target is parsed, an omitted one falls back to the socket's remembered
target_addr (which is none for a server) — and hands (payload, destination)
to the send task's channel.  The returned pair is what gets queued. -/
def send_udp_data (env : NetcatEnv) (session_id : String) (data : List Nat)
    (target_addr : Option String) : Except String (List Nat × Option String) :=
  match lookupA session_id env.udpSockets with
  | some sessionTarget =>
    match target_addr with
    | some s =>
      match env.parseAddr s with
      | some a => .ok (data, some a)
      | none => .error "解析地址失败"
    | none => .ok (data, sessionTarget)
  | none => .error "会话不存在"

/-- The destination the UDP send task actually sends a queued datagram to
(udp.rs, send task loop): an explicit queued address wins; otherwise the
remembered target_addr; if neither exists the task just continues, silently
dropping the datagram (result none). -/
def udp_send_task_dest (sessionTarget : Option String) : Option String → Option String
  | some t => some t
  | none => sessionTarget

/-- The routing match of netcat_send_message (netcat/mod.rs): dispatch on
the session's (protocol, mode): direct channel for a TCP client; broadcast
or addressed client for a TCP server, rejecting an unaddressed non-broadcast
send; send_udp_data for UDP in either mode. -/
def send_message_route (env : NetcatEnv) (s₀ : SessionState)
    (input : SendMessageInput) (data : List Nat) : Except String Unit :=
  match s₀.session.protocol, s₀.session.mode with
  | .tcp, .client => send_tcp_client_data env input.session_id
  | .tcp, .server =>
    if input.broadcast.getD false then broadcast_to_clients env input.session_id
    else
      match input.target_client with
      | some client_id => send_to_client env input.session_id client_id
      | none => .error "服务器模式需要指定目标客户端或广播"
  | .udp, _ =>
    match send_udp_data env input.session_id data input.target_client with
    | .ok _ => .ok ()
    | .error e => .error e

/-- netcat_send_message from netcat/mod.rs: looks the session up, decodes
the payload, routes by (protocol, mode) — direct channel for a TCP client;
broadcast or addressed client for a TCP server, rejecting an unaddressed
non-broadcast send; send_udp_data for UDP — and on success appends a Sent
NetcatMessage to the session's capped log and bumps message_count and
last_activity.  An error return leaves the session manager untouched (the
Rust code only mutates the session state after all fallible steps). -/
def netcat_send_message (env : NetcatEnv) (sessions : List (String × SessionState))
    (input : SendMessageInput) (now : Nat) (msgId : String) :
    Except String (List (String × SessionState) × NetcatMessage) :=
  match lookupA input.session_id sessions with
  | none => .error "会话不存在"
  | some s₀ =>
    match parse_input_data input.data input.format with
    | .error e => .error e
    | .ok data =>
      match send_message_route env s₀ input data with
      | .error e => .error e
      | .ok _ =>
        let message : NetcatMessage :=
          { id := msgId, session_id := input.session_id, direction := .sent,
            data := input.data, format := input.format, size := data.length,
            timestamp := now, client_id := input.target_client, client_addr := none }
        let msgs₁ := s₀.messages ++ [message]
        let msgs₂ := if msgs₁.length > 1000 then msgs₁.drop 1 else msgs₁
        let s₁ : SessionState :=
          { s₀ with
            messages := msgs₂
            session := { s₀.session with
              message_count := s₀.session.message_count + 1
              last_activity := some now } }
        .ok (insertA input.session_id s₁ sessions, message)

/-- handle_received_data from netcat/tcp_server.rs (the path where the write
lock is obtained; the lock-timeout skip is a concurrency fallback): updates
session and per-client counters and appends a Received message, capped at
1000 with the oldest evicted. -/
def tcp_server_handle_received_data (s : SessionState) (data : List Nat)
    (client_id : Option String) (client_addr : Option String) (now : Nat)
    (msgId : String) : SessionState × NetcatMessage :=
  let data_preview := bytes_to_display_string data
  let session₁ := { s.session with
    bytes_received := s.session.bytes_received + data.length
    message_count := s.session.message_count + 1
    last_activity := some now }
  let clients₁ := match client_id with
    | some cid =>
      match lookupA cid s.clients with
      | some c => insertA cid { c with
          bytes_received := c.bytes_received + data.length
          last_activity := now } s.clients
      | none => s.clients
    | none => s.clients
  let message : NetcatMessage :=
    { id := msgId, session_id := s.session.id, direction := .received,
      data := data_preview, format := .text, size := data.length,
      timestamp := now, client_id := client_id, client_addr := client_addr }
  let msgs₁ := s.messages ++ [message]
  let msgs₂ := if msgs₁.length > 1000 then msgs₁.drop 1 else msgs₁
  ({ session := session₁, messages := msgs₂, clients := clients₁,
     shutdown_tx := s.shutdown_tx }, message)

/-- handle_received_data from netcat/tcp_client.rs: like the server variant
but with no client table. -/
def tcp_client_handle_received_data (s : SessionState) (data : List Nat)
    (client_id : Option String) (now : Nat) (msgId : String) :
    SessionState × NetcatMessage :=
  let data_preview := bytes_to_display_string data
  let session₁ := { s.session with
    bytes_received := s.session.bytes_received + data.length
    message_count := s.session.message_count + 1
    last_activity := some now }
  let message : NetcatMessage :=
    { id := msgId, session_id := s.session.id, direction := .received,
      data := data_preview, format := .text, size := data.length,
      timestamp := now, client_id := client_id, client_addr := none }
  let msgs₁ := s.messages ++ [message]
  let msgs₂ := if msgs₁.length > 1000 then msgs₁.drop 1 else msgs₁
  ({ s with session := session₁, messages := msgs₂ }, message)

/-- The client id udp.rs derives from a peer address (udp- prefix, with
colons and dots replaced by dashes). -/
def udpClientId (from_addr : String) : String :=
  "udp-" ++ String.map (fun c => if c = ':' ∨ c = '.' then '-' else c) from_addr

/-- handle_received_data from netcat/udp.rs: updates counters, in server
mode registers or refreshes the ConnectedClient for the sender address, and
appends a Received message, capped at 1000 with the oldest evicted. -/
def udp_handle_received_data (s : SessionState) (data : List Nat)
    (from_addr : String) (mode : SessionMode) (now : Nat) (msgId : String) :
    SessionState × NetcatMessage :=
  let session₁ := { s.session with
    bytes_received := s.session.bytes_received + data.length
    message_count := s.session.message_count + 1
    last_activity := some now }
  let cid := udpClientId from_addr
  let client_id : Option String := if mode = .server then some cid else none
  let newClient : ConnectedClient :=
    { id := cid, addr := from_addr, connected_at := now, last_activity := now,
      bytes_sent := 0, bytes_received := data.length }
  let clients₁ :=
    if mode = .server then
      match lookupA cid s.clients with
      | none => insertA cid newClient s.clients
      | some c =>
        insertA cid { c with
          bytes_received := c.bytes_received + data.length
          last_activity := now } s.clients
    else s.clients
  let session₂ :=
    if mode = .server then
      match lookupA cid s.clients with
      | none => { session₁ with client_count := (insertA cid newClient s.clients).length }
      | some _ => session₁
    else session₁
  let message : NetcatMessage :=
    { id := msgId, session_id := s.session.id, direction := .received,
      data := bytes_to_display_string data, format := .text, size := data.length,
      timestamp := now, client_id := client_id, client_addr := some from_addr }
  let msgs₁ := s.messages ++ [message]
  let msgs₂ := if msgs₁.length > 1000 then msgs₁.drop 1 else msgs₁
  ({ session := session₂, messages := msgs₂, clients := clients₁,
     shutdown_tx := s.shutdown_tx }, message)

/-! ### Hex decode characterization -/

theorem hexdigit_not_ws (c : Char) (h : isAsciiHexDigit c = true) :
    rustIsWhitespace c = false := by
  simp only [isAsciiHexDigit, Bool.or_eq_true, Bool.and_eq_true, decide_eq_true_eq] at h
  simp only [rustIsWhitespace, Bool.or_eq_false_iff, Bool.and_eq_false_iff,
    decide_eq_false_iff_not, not_le]
  omega

theorem filter_hex_ws (l : List Char) :
    (l.filter (fun c => isAsciiHexDigit c || rustIsWhitespace c)).filter
      (fun c => !(rustIsWhitespace c)) = l.filter isAsciiHexDigit := by
  induction l with
  | nil => rfl
  | cons c rest ih =>
    cases hhex : isAsciiHexDigit c with
    | true =>
      have hws := hexdigit_not_ws c hhex
      simp [List.filter_cons, hhex, hws, ih]
    | false =>
      cases hws : rustIsWhitespace c with
      | true => simp [List.filter_cons, hhex, hws, ih]
      | false => simp [List.filter_cons, hhex, hws, ih]

theorem hexDigitVal_isSome (c : Char) (h : isAsciiHexDigit c = true) :
    ∃ v, hexDigitVal c = some v := by
  simp only [isAsciiHexDigit, Bool.or_eq_true, Bool.and_eq_true, decide_eq_true_eq] at h
  unfold hexDigitVal
  rcases h with (⟨h1, h2⟩ | ⟨h1, h2⟩) | ⟨h1, h2⟩
  · exact ⟨c.toNat - 48, by rw [if_pos ⟨h1, h2⟩]⟩
  · refine ⟨c.toNat - 87, ?_⟩
    rw [if_neg (by omega), if_pos ⟨h1, h2⟩]
  · refine ⟨c.toNat - 55, ?_⟩
    rw [if_neg (by omega), if_neg (by omega), if_pos ⟨h1, h2⟩]

theorem parseHexPairs_of_hexdigits :
    ∀ (l : List Char), (∀ c ∈ l, isAsciiHexDigit c = true) → l.length % 2 = 0 →
      parseHexPairs l = .ok (decodeHexDigits l)
  | [], _, _ => rfl
  | [c], h, he => by simp at he
  | hi :: lo :: rest, h, he => by
    obtain ⟨vh, hvh⟩ := hexDigitVal_isSome hi (h hi (by simp))
    obtain ⟨vl, hvl⟩ := hexDigitVal_isSome lo (h lo (by simp))
    have he₂ : rest.length % 2 = 0 := by
      simp only [List.length_cons] at he
      omega
    have ih := parseHexPairs_of_hexdigits rest
      (fun c hc => h c (by simp [hc])) he₂
    simp [parseHexPairs, decodeHexDigits, hvh, hvl, ih]

/-- C4 amended: the hex decode never reports invalid characters: everything
that is not a hex digit (after stripping "0x" and "0X") is silently filtered
out, and the only decode error is an odd count of surviving digits; the
returned bytes are the pairwise value of the surviving digits — possibly
empty, and possibly differing from what the user wrote. -/
theorem c4_amended (data : List Char) :
    parse_input_data data DataFormat.hex =
      if (hexDigitsOf data).length % 2 = 1 then
        Except.error "十六进制字符串长度必须为偶数"
      else Except.ok (decodeHexDigits (hexDigitsOf data)) := by
  have hfilter := filter_hex_ws (removePat2 '0' 'X' (removePat2 '0' 'x' data))
  simp only [parse_input_data, hexDigitsOf, hfilter]
  by_cases h : ((removePat2 '0' 'X' (removePat2 '0' 'x' data)).filter
      isAsciiHexDigit).length % 2 = 0
  · rw [if_neg (by omega), if_neg (by omega)]
    exact parseHexPairs_of_hexdigits _ (fun c hc => List.of_mem_filter hc) h
  · rw [if_pos (by omega), if_pos (by omega)]

/-! ### Netcat fixtures -/

/-- A connected TCP client session. -/
def sessionTcp : NetcatSession :=
  { id := "s1", name := "TCP Client 127.0.0.1:9000", protocol := .tcp, mode := .client,
    host := "127.0.0.1", port := 9000, status := .connected, auto_reconnect := false,
    timeout_ms := 5000, created_at := 0, connected_at := some 0, last_activity := some 0,
    bytes_sent := 0, bytes_received := 0, message_count := 0, error_message := none,
    client_count := 0 }

/-- Runtime state of the TCP client session. -/
def sstateTcp : SessionState :=
  { session := sessionTcp, messages := [], clients := [], shutdown_tx := true }

/-- Session manager holding just the TCP client session. -/
def sessionsTcpClient : List (String × SessionState) := [("s1", sstateTcp)]

/-- Environment with a live sender channel for the TCP client session. -/
def envTcpClient : NetcatEnv :=
  { tcpSenders := ["s1"], serverClients := [], udpSockets := [],
    parseAddr := fun _ => none }

/-- A listening TCP server session. -/
def sessionSrv : NetcatSession :=
  { sessionTcp with id := "s2", mode := .server, status := .listening }

/-- Runtime state of the TCP server session, zero connected clients. -/
def sstateSrv : SessionState :=
  { session := sessionSrv, messages := [], clients := [], shutdown_tx := true }

/-- Session manager holding just the TCP server session. -/
def sessionsSrv : List (String × SessionState) := [("s2", sstateSrv)]

/-- Environment for the TCP server session with an empty client-writer table. -/
def envSrv : NetcatEnv :=
  { tcpSenders := [], serverClients := [("s2", [])], udpSockets := [],
    parseAddr := fun _ => none }

/-- A listening UDP server session. -/
def sessionUdpSrv : NetcatSession :=
  { sessionTcp with id := "u1", protocol := .udp, mode := .server, status := .listening }

/-- Runtime state of the UDP server session. -/
def sstateUdpSrv : SessionState :=
  { session := sessionUdpSrv, messages := [], clients := [], shutdown_tx := true }

/-- Session manager holding just the UDP server session. -/
def sessionsUdp : List (String × SessionState) := [("u1", sstateUdpSrv)]

/-- Environment with the UDP server's socket (no remembered target) and a
UDP client socket u2 remembering peer 9.9.9.9:1. -/
def envUdp : NetcatEnv :=
  { tcpSenders := [], serverClients := [],
    udpSockets := [("u1", none), ("u2", some "9.9.9.9:1")],
    parseAddr := fun _ => none }

/-! ### C4 -/

/-- C4 counterexample: the hex payload "zz" contains no hex digit, no
whitespace and no 0x prefix, yet parse_input_data silently filters the
invalid characters out and returns empty bytes instead of an error, and
netcat_send_message consequently succeeds. -/
theorem c4_counterexample :
    parse_input_data ['z', 'z'] DataFormat.hex = Except.ok [] ∧
    isOkE (netcat_send_message envTcpClient sessionsTcpClient
      { session_id := "s1", data := ['z', 'z'], format := DataFormat.hex,
        target_client := none, broadcast := none } 1000 "m1") = true :=
  ⟨rfl, rfl⟩

/-! ### C5 -/

/-- C5 counterexample: for the UDP server session u1 a send with omitted
destination is not an error: send_udp_data accepts it and queues the
datagram with destination none, the send task resolves no destination and
silently drops it, and netcat_send_message reports success (even logging a
Sent message). -/
theorem c5_counterexample :
    send_udp_data envUdp "u1" [104, 105] none = Except.ok ([104, 105], none) ∧
    udp_send_task_dest none none = none ∧
    isOkE (netcat_send_message envUdp sessionsUdp
      { session_id := "u1", data := ['h', 'i'], format := DataFormat.text,
        target_client := none, broadcast := none } 1000 "m1") = true :=
  ⟨rfl, rfl, rfl⟩

/-- C5 amended: for a UDP session whose socket remembers no target (server
mode), a send with omitted destination is accepted — the pair (payload,
none) is queued and the send task silently drops it, with no error surfaced;
for a session remembering target t (client mode), the omitted destination
falls back to t. -/
theorem c5_amended (env : NetcatEnv) (sid : String) (data : List Nat) (t : String) :
    (lookupA sid env.udpSockets = some none →
      send_udp_data env sid data none = Except.ok (data, none) ∧
      udp_send_task_dest none none = none) ∧
    (lookupA sid env.udpSockets = some (some t) →
      send_udp_data env sid data none = Except.ok (data, some t) ∧
      udp_send_task_dest (some t) none = some t) := by
  constructor <;> intro h <;> simp [send_udp_data, h, udp_send_task_dest]

/-- C5 amended, witness: the server socket u1 and the client socket u2. -/
theorem c5_amended_witness :
    (send_udp_data envUdp "u1" [104] none = Except.ok ([104], none) ∧
      udp_send_task_dest none none = none) ∧
    (send_udp_data envUdp "u2" [104] none = Except.ok ([104], some "9.9.9.9:1") ∧
      udp_send_task_dest (some "9.9.9.9:1") none = some "9.9.9.9:1") :=
  ⟨(c5_amended envUdp "u1" [104] "9.9.9.9:1").1 rfl,
   (c5_amended envUdp "u2" [104] "9.9.9.9:1").2 rfl⟩

/-! ### C6 -/

/-- C6: a send_message whose hex payload resolves to an odd number of hex
digits fails with the even-length error; since netcat_send_message only
returns the mutated session map on success, the error return leaves the
session state unchanged and appends no NetcatMessage. -/
theorem c6_odd_hex_send (env : NetcatEnv) (sessions : List (String × SessionState))
    (input : SendMessageInput) (now : Nat) (msgId : String) (s : SessionState)
    (hs : lookupA input.session_id sessions = some s)
    (hf : input.format = DataFormat.hex)
    (hodd : (hexDigitsOf input.data).length % 2 = 1) :
    netcat_send_message env sessions input now msgId =
      Except.error "十六进制字符串长度必须为偶数" := by
  have hp := c4_amended input.data
  rw [if_pos hodd] at hp
  simp [netcat_send_message, hs, hf, hp]

/-- C6 witness: a one-digit hex payload on the live TCP client session. -/
theorem c6_odd_hex_send_witness :
    netcat_send_message envTcpClient sessionsTcpClient
      { session_id := "s1", data := ['A'], format := DataFormat.hex,
        target_client := none, broadcast := none } 1000 "m1" =
      Except.error "十六进制字符串长度必须为偶数" :=
  c6_odd_hex_send envTcpClient sessionsTcpClient _ 1000 "m1" sstateTcp rfl rfl (by decide)

/-! ### C7 -/

/-- C7: a TCP server session rejects a send_message that names no target
client and does not request broadcast with the no-target error — whatever
the client table holds, in particular when no client is connected; the
error is raised before any NetcatMessage is appended, and the error return
leaves the session map unchanged. -/
theorem c7_no_target (env : NetcatEnv) (sessions : List (String × SessionState))
    (input : SendMessageInput) (now : Nat) (msgId : String) (s : SessionState)
    (bs : List Nat)
    (hs : lookupA input.session_id sessions = some s)
    (hp : s.session.protocol = Protocol.tcp)
    (hm : s.session.mode = SessionMode.server)
    (hb : input.broadcast.getD false = false)
    (ht : input.target_client = none)
    (hok : parse_input_data input.data input.format = Except.ok bs) :
    netcat_send_message env sessions input now msgId =
      Except.error "服务器模式需要指定目标客户端或广播" := by
  simp [netcat_send_message, send_message_route, hs, hok, hp, hm, hb, ht]

/-- C7 witness: unaddressed non-broadcast text send on the zero-client
TCP server session. -/
theorem c7_no_target_witness :
    netcat_send_message envSrv sessionsSrv
      { session_id := "s2", data := ['h', 'i'], format := DataFormat.text,
        target_client := none, broadcast := none } 1000 "m1" =
      Except.error "服务器模式需要指定目标客户端或广播" :=
  c7_no_target envSrv sessionsSrv _ 1000 "m1" sstateSrv (utf8Encode ['h', 'i'])
    rfl rfl rfl rfl rfl rfl

/-! ### Hex rendering round trip (C8) -/

theorem hexDigitVal_toHexDigitU (n : Nat) (h : n < 16) :
    hexDigitVal (toHexDigitU n) = some n := by
  interval_cases n <;> rfl

theorem isAsciiHexDigit_toHexDigitU (n : Nat) (h : n < 16) :
    isAsciiHexDigit (toHexDigitU n) = true := by
  interval_cases n <;> rfl

theorem toHexDigitU_ne_x (n : Nat) (h : n < 16) :
    toHexDigitU n ≠ 'x' ∧ toHexDigitU n ≠ 'X' := by
  interval_cases n <;> exact ⟨by decide, by decide⟩

theorem mem_hexSpacedUpper :
    ∀ (data : List Nat), (∀ b ∈ data, b < 256) →
      ∀ c ∈ hexSpacedUpper data, c = ' ' ∨ ∃ n, n < 16 ∧ c = toHexDigitU n
  | [], _, c, hc => by simp [hexSpacedUpper] at hc
  | [b], h, c, hc => by
    have hb := h b (by simp)
    simp only [hexSpacedUpper, byteToHexU, List.mem_cons, List.not_mem_nil,
      or_false] at hc
    rcases hc with rfl | rfl
    · exact Or.inr ⟨b / 16, by omega, rfl⟩
    · exact Or.inr ⟨b % 16, by omega, rfl⟩
  | b :: b₂ :: rest, h, c, hc => by
    have hb := h b (by simp)
    have ih := mem_hexSpacedUpper (b₂ :: rest) (fun x hx => h x (by simp [hx])) c
    simp only [hexSpacedUpper, byteToHexU, List.cons_append, List.nil_append,
      List.mem_cons] at hc
    rcases hc with rfl | rfl | rfl | hc
    · exact Or.inr ⟨b / 16, by omega, rfl⟩
    · exact Or.inr ⟨b % 16, by omega, rfl⟩
    · exact Or.inl rfl
    · exact ih hc

theorem removePat2_of_not_mem (a b : Char) :
    ∀ (l : List Char), b ∉ l → removePat2 a b l = l
  | [], _ => rfl
  | [_], _ => rfl
  | c :: d :: rest, h => by
    have hd : d ≠ b := fun hh => h (by simp [hh])
    have ht : b ∉ d :: rest := fun hh => h (List.mem_cons_of_mem c hh)
    rw [removePat2, if_neg (fun hh => hd hh.2),
      removePat2_of_not_mem a b (d :: rest) ht]

/-- The hex digits of a byte list without the separating spaces. -/
def hexDigitsJoin : List Nat → List Char
  | [] => []
  | b :: rest => byteToHexU b ++ hexDigitsJoin rest

theorem filter_hexSpacedUpper :
    ∀ (data : List Nat), (∀ b ∈ data, b < 256) →
      (hexSpacedUpper data).filter isAsciiHexDigit = hexDigitsJoin data
  | [], _ => rfl
  | [b], h => by
    have hb := h b (by simp)
    simp [hexSpacedUpper, byteToHexU, hexDigitsJoin, List.filter_cons,
      isAsciiHexDigit_toHexDigitU (b / 16) (by omega),
      isAsciiHexDigit_toHexDigitU (b % 16) (by omega)]
  | b :: b₂ :: rest, h => by
    have hb := h b (by simp)
    have ih := filter_hexSpacedUpper (b₂ :: rest) (fun x hx => h x (by simp [hx]))
    simp [hexSpacedUpper, byteToHexU, hexDigitsJoin, List.filter_cons,
      isAsciiHexDigit_toHexDigitU (b / 16) (by omega),
      isAsciiHexDigit_toHexDigitU (b % 16) (by omega), ih,
      (by decide : isAsciiHexDigit ' ' = false)]

theorem length_hexDigitsJoin :
    ∀ (data : List Nat), (hexDigitsJoin data).length = 2 * data.length
  | [] => rfl
  | b :: rest => by
    simp [hexDigitsJoin, byteToHexU, length_hexDigitsJoin rest]
    omega

theorem decode_hexDigitsJoin :
    ∀ (data : List Nat), (∀ b ∈ data, b < 256) →
      decodeHexDigits (hexDigitsJoin data) = data
  | [], _ => rfl
  | b :: rest, h => by
    have hb := h b (by simp)
    have ih := decode_hexDigitsJoin rest (fun x hx => h x (by simp [hx]))
    simp [hexDigitsJoin, byteToHexU, decodeHexDigits,
      hexDigitVal_toHexDigitU (b / 16) (by omega),
      hexDigitVal_toHexDigitU (b % 16) (by omega), ih]
    omega

/-- C8: every received chunk is logged as its UTF-8 decoding when the bytes
are valid UTF-8 and as the space-separated uppercase hex rendering
otherwise; and parsing the hex rendering back through the hex decoder
reproduces exactly the original bytes. -/
theorem c8_display_roundtrip (data : List Nat) (h : ∀ b ∈ data, b < 256) :
    bytes_to_display_string data =
      (match utf8Decode data with
       | some s => s
       | none => hexSpacedUpper data) ∧
    parse_input_data (hexSpacedUpper data) DataFormat.hex = Except.ok data := by
  refine ⟨rfl, ?_⟩
  have hxn : 'x' ∉ hexSpacedUpper data := by
    intro hx
    rcases mem_hexSpacedUpper data h 'x' hx with h1 | ⟨n, hn, h2⟩
    · exact absurd h1 (by decide)
    · exact (toHexDigitU_ne_x n hn).1 h2.symm
  have hXn : 'X' ∉ hexSpacedUpper data := by
    intro hx
    rcases mem_hexSpacedUpper data h 'X' hx with h1 | ⟨n, hn, h2⟩
    · exact absurd h1 (by decide)
    · exact (toHexDigitU_ne_x n hn).2 h2.symm
  have hdigits : hexDigitsOf (hexSpacedUpper data) = hexDigitsJoin data := by
    rw [hexDigitsOf, removePat2_of_not_mem _ _ _ hxn, removePat2_of_not_mem _ _ _ hXn,
      filter_hexSpacedUpper data h]
  rw [c4_amended, hdigits, length_hexDigitsJoin,
    if_neg (by omega), decode_hexDigitsJoin data h]

/-- C8 witness: the two-byte buffer FF 00 is not valid UTF-8; its display
string is the hex rendering and the round trip reproduces the bytes. -/
theorem c8_display_roundtrip_witness :
    bytes_to_display_string [255, 0] =
      (match utf8Decode [255, 0] with
       | some s => s
       | none => hexSpacedUpper [255, 0]) ∧
    parse_input_data (hexSpacedUpper [255, 0]) DataFormat.hex = Except.ok [255, 0] :=
  c8_display_roundtrip [255, 0] (by decide)

/-! ### Message-log cap (C9) -/

/-- The capped-log relation between a session state before and after one
log-appending operation: at most 1000 messages remain, and when the log was
full the oldest entry has been evicted and the new message appended. -/
def capOk (s s₂ : SessionState) : Prop :=
  s₂.messages.length ≤ 1000 ∧
    (s.messages.length = 1000 → ∃ m, s₂.messages = s.messages.drop 1 ++ [m])

theorem capOk_of_pushCapped (s s₂ : SessionState) (m : NetcatMessage)
    (h : s.messages.length ≤ 1000)
    (hmsgs : s₂.messages =
      if (s.messages ++ [m]).length > 1000 then (s.messages ++ [m]).drop 1
      else s.messages ++ [m]) : capOk s s₂ := by
  constructor
  · rw [hmsgs]
    by_cases hlen : (s.messages ++ [m]).length > 1000
    · rw [if_pos hlen]
      simp only [List.length_drop, List.length_append, List.length_cons,
        List.length_nil]
      omega
    · rw [if_neg hlen]
      simp only [List.length_append, List.length_cons, List.length_nil] at hlen ⊢
      omega
  · intro h1000
    refine ⟨m, ?_⟩
    rw [hmsgs, if_pos (by simp only [List.length_append]; simp [h1000])]
    obtain ⟨a, rest, har⟩ : ∃ a rest, s.messages = a :: rest := by
      cases hcase : s.messages with
      | nil => rw [hcase] at h1000; simp at h1000
      | cons a rest => exact ⟨a, rest, rfl⟩
    rw [har]
    simp

/-- C9: each of the four log-appending operations — a received chunk on a
TCP server, a received chunk on a TCP client, a received datagram on a UDP
session, and a successful send — preserves the at-most-1000-messages
invariant, evicting the oldest message first when the cap is reached. -/
theorem c9_message_log_cap
    (s : SessionState) (data : List Nat) (cid : Option String)
    (caddr from_addr : String) (mode : SessionMode) (now : Nat) (msgId : String)
    (env : NetcatEnv) (sessions : List (String × SessionState))
    (input : SendMessageInput) (out : List (String × SessionState))
    (msg : NetcatMessage) (s₂ : SessionState)
    (h : s.messages.length ≤ 1000) :
    capOk s (tcp_server_handle_received_data s data cid (some caddr) now msgId).1 ∧
    capOk s (tcp_client_handle_received_data s data cid now msgId).1 ∧
    capOk s (udp_handle_received_data s data from_addr mode now msgId).1 ∧
    (netcat_send_message env sessions input now msgId = Except.ok (out, msg) →
      lookupA input.session_id sessions = some s →
      lookupA input.session_id out = some s₂ → capOk s s₂) := by
  refine ⟨?_, ?_, ?_, ?_⟩
  · exact capOk_of_pushCapped s _ _ h rfl
  · exact capOk_of_pushCapped s _ _ h rfl
  · exact capOk_of_pushCapped s _ _ h rfl
  · intro hok hs hs₂
    simp only [netcat_send_message, hs] at hok
    cases hparse : parse_input_data input.data input.format with
    | error e =>
      simp only [hparse] at hok
      exact Except.noConfusion hok
    | ok bs =>
      simp only [hparse] at hok
      cases hroute : send_message_route env s input bs with
      | error e =>
        simp only [hroute] at hok
        exact Except.noConfusion hok
      | ok u =>
        simp only [hroute] at hok
        simp only [Except.ok.injEq, Prod.mk.injEq] at hok
        obtain ⟨hout, hmsg⟩ := hok
        rw [← hout, lookupA_insertA_self] at hs₂
        have hs₂b := Option.some.inj hs₂
        refine capOk_of_pushCapped s s₂
          { id := msgId, session_id := input.session_id, direction := .sent,
            data := input.data, format := input.format, size := bs.length,
            timestamp := now, client_id := input.target_client, client_addr := none }
          h ?_
        rw [← hs₂b]

/-- A concrete Sent message used to instantiate the send conjunct of the
cap theorem. -/
def msgW : NetcatMessage :=
  { id := "m1", session_id := "s1", direction := .sent, data := ['h'],
    format := .text, size := 1, timestamp := 7, client_id := none,
    client_addr := none }

/-- C9 witness: all four operations at a concrete state with an empty log
(the send operation exercised on the live TCP client session). -/
theorem c9_message_log_cap_witness :
    capOk sstateTcp (tcp_server_handle_received_data sstateTcp [104] none
      (some "1.2.3.4:5") 7 "m1").1 ∧
    capOk sstateTcp (tcp_client_handle_received_data sstateTcp [104] none 7 "m1").1 ∧
    capOk sstateTcp (udp_handle_received_data sstateTcp [104] "1.2.3.4:5"
      SessionMode.server 7 "m1").1 ∧
    (netcat_send_message envTcpClient sessionsTcpClient
        { session_id := "s1", data := ['h'], format := DataFormat.text,
          target_client := none, broadcast := none } 7 "m1" =
        Except.ok (sessionsTcpClient, msgW) →
      lookupA "s1" sessionsTcpClient = some sstateTcp →
      lookupA "s1" sessionsTcpClient = some sstateTcp → capOk sstateTcp sstateTcp) :=
  c9_message_log_cap sstateTcp [104] none "1.2.3.4:5" "1.2.3.4:5" SessionMode.server
    7 "m1" envTcpClient sessionsTcpClient
    { session_id := "s1", data := ['h'], format := DataFormat.text,
      target_client := none, broadcast := none }
    sessionsTcpClient msgW sstateTcp (by decide)

end Codeshelf
